import Mathlib

/-!
Verification of the Lumina Studio editing core: the undo/redo history store,
the adjustment preview pipeline, the preset filters, and the AI edit service
response handling. Definitions are shallow embeddings of the TypeScript
source (`App.tsx`, `constants.ts`, `types.ts`, `services/geminiService.ts`).
-/

namespace Lumina

/-- Language type from `types.ts`: `'en' | 'ar'`. -/
inductive Language
  | en
  | ar
deriving DecidableEq

/-- View mode from `App.tsx`: `'editor' | 'gallery'`. -/
inductive ViewMode
  | editor
  | gallery
deriving DecidableEq

/-- EditMode from `types.ts`: `'adjust' | 'filter' | 'ai-edit' | 'identify' | 'erase' | null`;
the `null` case is modelled as `Option.none` at use sites. -/
inductive EditMode
  | adjust
  | filter
  | aiEdit
  | identify
  | erase
deriving DecidableEq

/-- ImageAdjustments from `types.ts`: six numeric sliders. -/
structure ImageAdjustments where
  brightness : Int
  contrast : Int
  saturation : Int
  grayscale : Int
  sepia : Int
  blur : Int
deriving DecidableEq

/-- DEFAULT_ADJUSTMENTS from `constants.ts`. -/
def DEFAULT_ADJUSTMENTS : ImageAdjustments :=
  { brightness := 100
    contrast := 100
    saturation := 100
    grayscale := 0
    sepia := 0
    blur := 0 }

/-- PresetFilter from `types.ts` (the optional `overlay` field is unused by
the presets in `constants.ts` and omitted). -/
structure PresetFilter where
  id : String
  nameKey : String
  adjustments : ImageAdjustments
deriving DecidableEq

/-- Preset `original` from `constants.ts`. -/
def presetOriginal : PresetFilter :=
  { id := "original", nameKey := "original", adjustments := DEFAULT_ADJUSTMENTS }

/-- Preset `vintage` from `constants.ts`. -/
def presetVintage : PresetFilter :=
  { id := "vintage", nameKey := "vintage"
    adjustments := { DEFAULT_ADJUSTMENTS with sepia := 40, contrast := 110, brightness := 90, saturation := 80 } }

/-- Preset `bw` from `constants.ts`. -/
def presetBw : PresetFilter :=
  { id := "bw", nameKey := "grayscale"
    adjustments := { DEFAULT_ADJUSTMENTS with grayscale := 100, contrast := 120 } }

/-- Preset `movie` from `constants.ts`. -/
def presetMovie : PresetFilter :=
  { id := "movie", nameKey := "movie"
    adjustments := { DEFAULT_ADJUSTMENTS with contrast := 130, saturation := 110, brightness := 95 } }

/-- Preset `dramatic` from `constants.ts`. -/
def presetDramatic : PresetFilter :=
  { id := "dramatic", nameKey := "dramatic"
    adjustments := { DEFAULT_ADJUSTMENTS with contrast := 150, saturation := 0, brightness := 80 } }

/-- PRESET_FILTERS from `constants.ts`. -/
def PRESET_FILTERS : List PresetFilter :=
  [presetOriginal, presetVintage, presetBw, presetMovie, presetDramatic]

/-- Session state of the `App` component (`App.tsx`): the fields that the
editing-core handlers read or write. Image data URLs are opaque strings. -/
structure AppState where
  lang : Language
  viewMode : ViewMode
  history : List String
  historyIndex : Int
  adjustments : ImageAdjustments
  activeMode : Option EditMode
  isLoading : Bool
  aiPrompt : String
  identifyResult : Option String
  gallery : List String
deriving DecidableEq

/-- Initial component state (`App.tsx` useState initialisers). -/
def initialState : AppState :=
  { lang := Language.en
    viewMode := ViewMode.gallery
    history := []
    historyIndex := -1
    adjustments := DEFAULT_ADJUSTMENTS
    activeMode := none
    isLoading := false
    aiPrompt := ""
    identifyResult := none
    gallery := [] }

/-- JavaScript `array.slice(0, e)`: a negative end index counts from the end
of the array, and both directions clamp. -/
def jsSliceTo (l : List String) (e : Int) : List String :=
  if e < 0 then l.take ((l.length : Int) + e).toNat else l.take e.toNat

/-- JavaScript `array[i]` for an integer index: `undefined` (here `none`)
when out of bounds or negative. -/
def jsGet (l : List String) (i : Int) : Option String :=
  if 0 ≤ i then l.get? i.toNat else none

/-- `currentImage = history[historyIndex] || null` from `App.tsx`: the
JavaScript `|| null` also maps an empty string to `null`. -/
def currentImage (st : AppState) : Option String :=
  match jsGet st.history st.historyIndex with
  | some s => if s = "" then none else some s
  | none => none

/-- `addToHistory` from `App.tsx`: truncate the history to
`slice(0, historyIndex + 1)`, push the new image, and point the cursor at
the new last element. -/
def addToHistory (st : AppState) (newImage : String) : AppState :=
  let newHistory := jsSliceTo st.history (st.historyIndex + 1) ++ [newImage]
  { st with history := newHistory, historyIndex := (newHistory.length : Int) - 1 }

/-- `handleUndo` from `App.tsx`: decrement the cursor and reset the sliders,
only when `historyIndex > 0`. -/
def handleUndo (st : AppState) : AppState :=
  if st.historyIndex > 0 then
    { st with historyIndex := st.historyIndex - 1, adjustments := DEFAULT_ADJUSTMENTS }
  else st

/-- `handleRedo` from `App.tsx`: increment the cursor and reset the sliders,
only when `historyIndex < history.length - 1`. -/
def handleRedo (st : AppState) : AppState :=
  if st.historyIndex < (st.history.length : Int) - 1 then
    { st with historyIndex := st.historyIndex + 1, adjustments := DEFAULT_ADJUSTMENTS }
  else st

/-- `openInEditor` from `App.tsx`: seed a fresh single-entry history. -/
def openInEditor (st : AppState) (imgSrc : String) : AppState :=
  { st with history := [imgSrc]
            historyIndex := 0
            adjustments := DEFAULT_ADJUSTMENTS
            identifyResult := none
            activeMode := some EditMode.filter
            viewMode := ViewMode.editor }

/-- `applyPreset` from `App.tsx`: overwrite the sliders wholesale. -/
def applyPreset (preset : PresetFilter) (st : AppState) : AppState :=
  { st with adjustments := preset.adjustments }

/-- `resetImage` from `App.tsx`: when the history is non-empty, move the
cursor back to the root and reset the sliders; otherwise do nothing. -/
def resetImage (st : AppState) : AppState :=
  if st.history.length > 0 then
    { st with historyIndex := 0, adjustments := DEFAULT_ADJUSTMENTS, identifyResult := none }
  else st

/-- History cursor invariant from the spec data model: `0 <= i < length`
whenever the sequence is non-empty. -/
def Inv (st : AppState) : Prop :=
  0 < st.history.length → 0 ≤ st.historyIndex ∧ st.historyIndex < st.history.length

/-- TRANSLATIONS from `constants.ts` as a list of (key, en, ar) rows. -/
def TRANSLATIONS : List (String × String × String) :=
  [ ("appTitle", "Lumina Studio", "ستوديو لومينا")
  , ("uploadTitle", "Upload Photo", "رفع صورة")
  , ("uploadDesc", "Drag & drop or click to upload", "اسحب وأفلت أو انقر للرفع")
  , ("tools", "Tools", "الأدوات")
  , ("adjust", "Adjust", "تعديل")
  , ("filters", "Filters", "فلاتر")
  , ("aiEdit", "AI Magic", "سحر الذكاء الاصطناعي")
  , ("identify", "Identify", "تعرف")
  , ("download", "Download", "تحميل")
  , ("reset", "Reset", "إعادة ضبط")
  , ("brightness", "Brightness", "السطوع")
  , ("contrast", "Contrast", "التباين")
  , ("saturation", "Saturation", "التشبع")
  , ("grayscale", "B&W", "أبيض وأسود")
  , ("sepia", "Sepia", "سيبيا")
  , ("blur", "Blur", "ضبابية")
  , ("identifyPrompt", "Analyzing image...", "جاري تحليل الصورة...")
  , ("identifyResult", "Identification Result", "نتيجة التعرف")
  , ("generate", "Generate", "توليد")
  , ("processing", "Processing...", "جاري المعالجة...")
  , ("vintage", "Vintage", "عتيق")
  , ("movie", "Movie Mode", "وضع السينما")
  , ("warm", "Warm", "دافئ")
  , ("cool", "Cool", "بارد")
  , ("dramatic", "Dramatic", "درامي")
  , ("original", "Original", "أصلي")
  , ("back", "Back", "رجوع")
  , ("gallery", "Gallery", "المعرض")
  , ("error", "An error occurred", "حدث خطأ")
  , ("success", "Success", "تم بنجاح") ]

/-- Translation helper `t` from `App.tsx`: look the key up, pick the
language-specific string, fall back through the English string (JavaScript
`||` treats the empty string as falsy) and finally the key itself. -/
def t (lg : Language) (key : String) : String :=
  match TRANSLATIONS.find? (fun row => row.1 = key) with
  | none => key
  | some row =>
      let s := match lg with
        | Language.en => row.2.1
        | Language.ar => row.2.2
      if s ≠ "" then s else if row.2.1 ≠ "" then row.2.1 else key

/-- Result of one external AI service call: the resolved value or the
rejection. The call itself is an external collaborator. -/
abbrev ServiceResult := Except String String

/-- JavaScript `string.trim()`: strip leading and trailing whitespace. -/
def jsTrim (s : String) : String :=
  ⟨((s.data.dropWhile Char.isWhitespace).reverse.dropWhile Char.isWhitespace).reverse⟩

/-- `handleIdentify` from `App.tsx`, with the awaited service outcome passed
in explicitly. Returns the next state and whether the service was invoked:
when there is no current image the handler returns before any state change
or service call; otherwise it sets the loading flag, clears the previous
result, records the service answer (or the generic localized error) and
finally clears the loading flag. -/
def handleIdentify (svc : ServiceResult) (st : AppState) : AppState × Bool :=
  match currentImage st with
  | none => (st, false)
  | some _ =>
      let st1 := { st with isLoading := true, identifyResult := none }
      match svc with
      | Except.ok res => ({ st1 with identifyResult := some res, isLoading := false }, true)
      | Except.error _ => ({ st1 with identifyResult := some (t st.lang "error"), isLoading := false }, true)

/-- `handleAIEdit` from `App.tsx`, with the awaited service outcome passed in
explicitly. Returns the next state, the alert message shown on failure, and
whether the service was invoked. The guard rejects locally when there is no
current image or the prompt is blank; on success the result is committed to
history, the sliders reset, the prompt cleared and the result prepended to
the gallery; on failure only the alert is shown; the loading flag is cleared
in both cases. -/
def handleAIEdit (svc : ServiceResult) (st : AppState) : AppState × Option String × Bool :=
  if currentImage st = none ∨ jsTrim st.aiPrompt = "" then (st, none, false)
  else
    let st1 := { st with isLoading := true }
    match svc with
    | Except.ok newImage =>
        let st2 := addToHistory st1 newImage
        let st3 := { st2 with adjustments := DEFAULT_ADJUSTMENTS
                              aiPrompt := ""
                              gallery := newImage :: st2.gallery }
        ({ st3 with isLoading := false }, none, true)
    | Except.error _ =>
        ({ st1 with isLoading := false }, some (t st.lang "error"), true)

/-- The commit protocol as performed by both call sites of `addToHistory` in
`App.tsx` (`handleAIEdit`, `handleEraser`): push the committed image, then
reset the sliders to baseline. -/
def commitEdit (st : AppState) (newImage : String) : AppState :=
  { addToHistory st newImage with adjustments := DEFAULT_ADJUSTMENTS }

/-- Filter operations of the canvas context filter string built in
`applyAdjustmentsToCanvas` (`App.tsx`). -/
inductive FilterOp
  | brightness (pct : Int)
  | contrast (pct : Int)
  | saturate (pct : Int)
  | grayscale (pct : Int)
  | sepia (pct : Int)
  | blur (px : Int)
deriving DecidableEq

/-- Name of the CSS filter function a `FilterOp` renders to. -/
def FilterOp.opName : FilterOp → String
  | FilterOp.brightness _ => "brightness"
  | FilterOp.contrast _ => "contrast"
  | FilterOp.saturate _ => "saturate"
  | FilterOp.grayscale _ => "grayscale"
  | FilterOp.sepia _ => "sepia"
  | FilterOp.blur _ => "blur"

/-- Rendered canvas: the source image drawn through an ordered list of
filter operations (spec 9 models the declarative filter string exactly this
way). -/
structure Canvas where
  image : String
  filters : List FilterOp
deriving DecidableEq

/-- `applyAdjustmentsToCanvas` from `App.tsx`: when a current image exists,
draw it through the filter string assembled from the adjustment values, in
the order the template literal interpolates them; the component state is
returned untouched. -/
def applyAdjustmentsToCanvas (st : AppState) : AppState × Option Canvas :=
  match currentImage st with
  | none => (st, none)
  | some img =>
      (st, some { image := img
                  filters := [ FilterOp.brightness st.adjustments.brightness
                             , FilterOp.contrast st.adjustments.contrast
                             , FilterOp.saturate st.adjustments.saturation
                             , FilterOp.grayscale st.adjustments.grayscale
                             , FilterOp.sepia st.adjustments.sepia
                             , FilterOp.blur st.adjustments.blur ] })

/-- `inlineData` payload of a response part (`services/geminiService.ts`). -/
structure InlineData where
  mimeType : String
  data : String
deriving DecidableEq

/-- One part of a model response candidate. -/
structure ResponsePart where
  text : Option String
  inlineData : Option InlineData
deriving DecidableEq

/-- Content of a response candidate; `parts` is optional in the API type. -/
structure ResponseContent where
  parts : Option (List ResponsePart)
deriving DecidableEq

/-- One response candidate; `content` is optional in the API type. -/
structure ResponseCandidate where
  content : Option ResponseContent
deriving DecidableEq

/-- Model response as consumed by `editImageWithAI`. -/
structure GenerateContentResponse where
  candidates : Option (List ResponseCandidate)
deriving DecidableEq

/-- Loop body of `editImageWithAI`: the first part of the list that carries
`inlineData`, if any. -/
def findInlinePart : List ResponsePart → Option InlineData
  | [] => none
  | p :: rest =>
      match p.inlineData with
      | some d => some d
      | none => findInlinePart rest

/-- Response extraction of `editImageWithAI` (`services/geminiService.ts`):
when candidates exist and are non-empty, scan the first candidate through
`content?.parts` for an `inlineData` part and return its data URL; in every
other case throw. -/
def extractEditedImage (response : GenerateContentResponse) : Except String String :=
  match response.candidates with
  | some (firstCandidate :: _) =>
      (match firstCandidate.content with
       | some content =>
           (match content.parts with
            | some parts =>
                (match findInlinePart parts with
                 | some d => Except.ok ("data:" ++ d.mimeType ++ ";base64," ++ d.data)
                 | none => Except.error "AI successfully processed the request but returned no image. Try a different instruction.")
            | none => Except.error "AI successfully processed the request but returned no image. Try a different instruction.")
       | none => Except.error "AI successfully processed the request but returned no image. Try a different instruction.")
  | _ => Except.error "AI successfully processed the request but returned no image. Try a different instruction."

/-- Parts of the response that the `editImageWithAI` extraction loop scans:
the first candidate through the `content?.parts` optional chain, and the
empty list whenever the chain is short-circuited. -/
def scannedParts (response : GenerateContentResponse) : List ResponsePart :=
  match response.candidates with
  | some (firstCandidate :: _) =>
      (match firstCandidate.content with
       | some content => content.parts.getD []
       | none => [])
  | _ => []

/-- Sample editing session with a three-entry history and the cursor in the
middle, used to exercise the handlers on concrete data. -/
def sampleState : AppState :=
  { lang := Language.en
    viewMode := ViewMode.editor
    history := ["imgA", "imgB", "imgC"]
    historyIndex := 1
    adjustments := DEFAULT_ADJUSTMENTS
    activeMode := some EditMode.adjust
    isLoading := false
    aiPrompt := "make it pop"
    identifyResult := none
    gallery := [] }

/-- Sample editing session with a single-entry history at its root. -/
def sampleRootState : AppState :=
  { lang := Language.en
    viewMode := ViewMode.editor
    history := ["imgA"]
    historyIndex := 0
    adjustments := DEFAULT_ADJUSTMENTS
    activeMode := some EditMode.aiEdit
    isLoading := false
    aiPrompt := "remove the cup"
    identifyResult := none
    gallery := [] }

/-- C1: committing a state truncates the history to the prefix through the
cursor, appends the new state, points the cursor at the new last index, and
leaves an immediate redo with nothing to do. -/
theorem addToHistory_commit_spec (st : AppState) (s : String)
    (h : -1 ≤ st.historyIndex) :
    (addToHistory st s).history
      = st.history.take (st.historyIndex + 1).toNat ++ [s]
    ∧ (addToHistory st s).historyIndex
      = ((addToHistory st s).history.length : Int) - 1
    ∧ handleRedo (addToHistory st s) = addToHistory st s := by
  have h01 : ¬ (st.historyIndex + 1 < 0) := by omega
  refine ⟨?_, ?_, ?_⟩
  · simp [addToHistory, jsSliceTo, if_neg h01]
  · simp [addToHistory]
  · unfold handleRedo
    rw [if_neg]
    simp [addToHistory]

/-- Witness of `addToHistory_commit_spec` on a concrete session: committing
"imgD" from cursor 1 of a three-entry history discards the forward entry. -/
theorem addToHistory_commit_spec_witness :
    (addToHistory sampleState "imgD").history
      = sampleState.history.take (sampleState.historyIndex + 1).toNat ++ ["imgD"]
    ∧ (addToHistory sampleState "imgD").historyIndex
      = ((addToHistory sampleState "imgD").history.length : Int) - 1
    ∧ handleRedo (addToHistory sampleState "imgD") = addToHistory sampleState "imgD" :=
  addToHistory_commit_spec sampleState "imgD" (by decide)

/-- C2: the cursor invariant is preserved by commit, undo, redo, reset and
seeding a fresh history root. -/
theorem session_ops_preserve_inv (st : AppState) (s img : String) (h : Inv st) :
    Inv (addToHistory st s) ∧ Inv (handleUndo st) ∧ Inv (handleRedo st)
    ∧ Inv (resetImage st) ∧ Inv (openInEditor st img) := by
  refine ⟨?_, ?_, ?_, ?_, ?_⟩
  · intro _
    simp only [addToHistory, List.length_append, List.length_singleton]
    omega
  · unfold handleUndo
    split
    · intro hl
      simp only at hl ⊢
      rcases (h hl) with ⟨hle, hlt⟩
      omega
    · exact h
  · unfold handleRedo
    split
    · intro hl
      simp only at hl ⊢
      rcases (h hl) with ⟨hle, hlt⟩
      omega
    · exact h
  · unfold resetImage
    split
    · intro hl
      simp only at hl ⊢
      omega
    · exact h
  · intro _
    simp [openInEditor]

/-- Witness of `session_ops_preserve_inv` on a concrete session. -/
theorem session_ops_preserve_inv_witness :
    Inv (addToHistory sampleState "imgD") ∧ Inv (handleUndo sampleState)
    ∧ Inv (handleRedo sampleState) ∧ Inv (resetImage sampleState)
    ∧ Inv (openInEditor sampleState "imgE") :=
  session_ops_preserve_inv sampleState "imgD" "imgE"
    (fun _ => by constructor <;> decide)

/-- C3: away from the lower boundary and within bounds, undo followed by
redo returns the cursor to its old position, so the current image is the
one before the pair of operations. -/
theorem undo_redo_preserves_current (st : AppState)
    (h0 : 0 < st.historyIndex) (h1 : st.historyIndex < st.history.length) :
    currentImage (handleRedo (handleUndo st)) = currentImage st := by
  unfold handleUndo
  rw [if_pos h0]
  unfold handleRedo
  rw [if_pos (by simp only; omega)]
  simp only [currentImage, jsGet]
  have hix : st.historyIndex - 1 + 1 = st.historyIndex := by omega
  rw [hix]

/-- Witness of `undo_redo_preserves_current` on a concrete session. -/
theorem undo_redo_preserves_current_witness :
    currentImage (handleRedo (handleUndo sampleState)) = currentImage sampleState :=
  undo_redo_preserves_current sampleState (by decide) (by decide)

/-- C4: undo at cursor 0 and redo at the last index leave the whole session
state unchanged. -/
theorem boundary_undo_redo_noop (st : AppState) :
    (st.historyIndex = 0 → handleUndo st = st)
    ∧ (st.historyIndex = (st.history.length : Int) - 1 → handleRedo st = st) := by
  constructor
  · intro h
    unfold handleUndo
    rw [if_neg (by omega)]
  · intro h
    unfold handleRedo
    rw [if_neg (by omega)]

/-- Witness of `boundary_undo_redo_noop`: on a single-entry history the
cursor is both at 0 and at the last index, and undo and redo do nothing. -/
theorem boundary_undo_redo_noop_witness :
    handleUndo sampleRootState = sampleRootState
    ∧ handleRedo sampleRootState = sampleRootState :=
  ⟨(boundary_undo_redo_noop sampleRootState).1 (by decide),
   (boundary_undo_redo_noop sampleRootState).2 (by decide)⟩

/-- C5 counterexample: on a single-entry history at cursor 0, applying the
`dramatic` preset and then undoing does NOT restore the baseline sliders,
because the boundary undo is a complete no-op and never touches the
adjustments. -/
theorem preset_then_boundary_undo_keeps_preset :
    (handleUndo (applyPreset presetDramatic sampleRootState)).adjustments
      ≠ DEFAULT_ADJUSTMENTS := by decide

/-- C5 amended: applying a preset and then moving the cursor restores the
baseline sliders, provided the operation actually moves the cursor: reset
needs a non-empty history, undo needs cursor above 0, redo needs the cursor
before the last index; the commit protocol always resets. -/
theorem preset_then_cursor_move_resets (P : PresetFilter) (st : AppState) :
    (st.history ≠ [] →
       (resetImage (applyPreset P st)).adjustments = DEFAULT_ADJUSTMENTS)
    ∧ (0 < st.historyIndex →
       (handleUndo (applyPreset P st)).adjustments = DEFAULT_ADJUSTMENTS)
    ∧ (st.historyIndex < (st.history.length : Int) - 1 →
       (handleRedo (applyPreset P st)).adjustments = DEFAULT_ADJUSTMENTS)
    ∧ (∀ s, (commitEdit (applyPreset P st) s).adjustments = DEFAULT_ADJUSTMENTS) := by
  refine ⟨?_, ?_, ?_, ?_⟩
  · intro hne
    unfold resetImage applyPreset
    rw [if_pos (by simpa [List.length_pos] using hne)]
  · intro hgt
    unfold handleUndo applyPreset
    rw [if_pos (by simpa using hgt)]
  · intro hlt
    unfold handleRedo applyPreset
    rw [if_pos (by simpa using hlt)]
  · intro s
    simp [commitEdit]

/-- Witness of `preset_then_cursor_move_resets` on a concrete mid-history
session, where reset, undo, redo and commit all genuinely move the cursor. -/
theorem preset_then_cursor_move_resets_witness :
    (resetImage (applyPreset presetDramatic sampleState)).adjustments = DEFAULT_ADJUSTMENTS
    ∧ (handleUndo (applyPreset presetDramatic sampleState)).adjustments = DEFAULT_ADJUSTMENTS
    ∧ (handleRedo (applyPreset presetDramatic sampleState)).adjustments = DEFAULT_ADJUSTMENTS
    ∧ (commitEdit (applyPreset presetDramatic sampleState) "imgD").adjustments = DEFAULT_ADJUSTMENTS := by
  obtain ⟨h1, h2, h3, h4⟩ := preset_then_cursor_move_resets presetDramatic sampleState
  exact ⟨h1 (by decide), h2 (by decide), h3 (by decide), h4 "imgD"⟩

/-- C6: resetting a non-empty session moves the cursor to the root, keeps
every history entry, and restores the baseline sliders; on an empty history
it changes nothing at all. -/
theorem resetImage_spec (st : AppState) :
    (st.history ≠ [] →
       (resetImage st).historyIndex = 0
       ∧ (resetImage st).history = st.history
       ∧ (resetImage st).adjustments = DEFAULT_ADJUSTMENTS)
    ∧ (st.history = [] → resetImage st = st) := by
  constructor
  · intro hne
    unfold resetImage
    rw [if_pos (by simpa [List.length_pos] using hne)]
    exact ⟨rfl, rfl, rfl⟩
  · intro he
    unfold resetImage
    rw [if_neg (by simp [he])]

/-- Witness of `resetImage_spec`: the non-empty branch on a concrete
mid-history session and the empty branch on the initial state. -/
theorem resetImage_spec_witness :
    ((resetImage sampleState).historyIndex = 0
     ∧ (resetImage sampleState).history = sampleState.history
     ∧ (resetImage sampleState).adjustments = DEFAULT_ADJUSTMENTS)
    ∧ resetImage initialState = initialState :=
  ⟨(resetImage_spec sampleState).1 (by decide),
   (resetImage_spec initialState).2 rfl⟩

/-- C7: when the edit service rejects, the session keeps its history, its
cursor and its sliders, and the generic localized error is surfaced; only
the loading flag is cleared. -/
theorem aiEdit_failure_preserves_session (st : AppState) (a e : String)
    (hh : st.history = [a]) (ha : a ≠ "") (hi : st.historyIndex = 0)
    (hp : jsTrim st.aiPrompt ≠ "") :
    (handleAIEdit (Except.error e) st).1.history = [a]
    ∧ (handleAIEdit (Except.error e) st).1.historyIndex = 0
    ∧ (handleAIEdit (Except.error e) st).1.adjustments = st.adjustments
    ∧ (handleAIEdit (Except.error e) st).2.1 = some (t st.lang "error")
    ∧ (handleAIEdit (Except.error e) st).1
        = { st with isLoading := false } := by
  have hcur : currentImage st = some a := by
    simp [currentImage, jsGet, hh, hi, ha]
  unfold handleAIEdit
  rw [if_neg (by simp [hcur, hp])]
  simp [hh, hi]

/-- Witness of `aiEdit_failure_preserves_session` on a concrete root
session with a failing service call. -/
theorem aiEdit_failure_preserves_session_witness :
    (handleAIEdit (Except.error "boom") sampleRootState).1.history = ["imgA"]
    ∧ (handleAIEdit (Except.error "boom") sampleRootState).1.historyIndex = 0
    ∧ (handleAIEdit (Except.error "boom") sampleRootState).1.adjustments
        = sampleRootState.adjustments
    ∧ (handleAIEdit (Except.error "boom") sampleRootState).2.1
        = some (t sampleRootState.lang "error")
    ∧ (handleAIEdit (Except.error "boom") sampleRootState).1
        = { sampleRootState with isLoading := false } :=
  aiEdit_failure_preserves_session sampleRootState "imgA" "boom"
    rfl (by decide) rfl (by decide)

/-- C8: with an empty history both identify and edit are rejected locally
(the session state is returned untouched and the service flag is false for
every possible service outcome), and a blank instruction likewise rejects
the edit locally. -/
theorem local_precondition_rejection (st : AppState) (svc : ServiceResult) :
    (st.history = [] →
       handleIdentify svc st = (st, false)
       ∧ handleAIEdit svc st = (st, none, false))
    ∧ (jsTrim st.aiPrompt = "" → handleAIEdit svc st = (st, none, false)) := by
  constructor
  · intro he
    have hcur : currentImage st = none := by
      simp [currentImage, jsGet, he]
    constructor
    · unfold handleIdentify
      rw [hcur]
    · unfold handleAIEdit
      rw [if_pos (Or.inl hcur)]
  · intro hp
    unfold handleAIEdit
    rw [if_pos (Or.inr hp)]

/-- Witness of `local_precondition_rejection` on the initial state, whose
history is empty and whose prompt is blank, under a service that would
succeed if it were ever called. -/
theorem local_precondition_rejection_witness :
    (handleIdentify (Except.ok "a cat") initialState = (initialState, false)
     ∧ handleAIEdit (Except.ok "imgZ") initialState = (initialState, none, false))
    ∧ handleAIEdit (Except.ok "imgZ") initialState = (initialState, none, false) :=
  ⟨(local_precondition_rejection initialState (Except.ok "a cat")).1 rfl |>.imp id
      (fun _ => (local_precondition_rejection initialState (Except.ok "imgZ")).1 rfl |>.2),
   (local_precondition_rejection initialState (Except.ok "imgZ")).2 (by decide)⟩

/-- C9: the preview pipeline renders the current committed image through the
filter operations in the fixed order brightness, contrast, saturate,
grayscale, sepia, blur, leaves the session state untouched, and is a
deterministic function of the current image and the adjustments alone. -/
theorem preview_pipeline_spec (st st' : AppState) (img : String)
    (h : currentImage st = some img)
    (h1 : currentImage st' = currentImage st)
    (h2 : st'.adjustments = st.adjustments) :
    (applyAdjustmentsToCanvas st).1 = st
    ∧ (applyAdjustmentsToCanvas st).2
        = some { image := img
                 filters := [ FilterOp.brightness st.adjustments.brightness
                            , FilterOp.contrast st.adjustments.contrast
                            , FilterOp.saturate st.adjustments.saturation
                            , FilterOp.grayscale st.adjustments.grayscale
                            , FilterOp.sepia st.adjustments.sepia
                            , FilterOp.blur st.adjustments.blur ] }
    ∧ Option.map (fun c => c.filters.map FilterOp.opName) (applyAdjustmentsToCanvas st).2
        = some ["brightness", "contrast", "saturate", "grayscale", "sepia", "blur"]
    ∧ (applyAdjustmentsToCanvas st').2 = (applyAdjustmentsToCanvas st).2 := by
  refine ⟨?_, ?_, ?_, ?_⟩
  · unfold applyAdjustmentsToCanvas
    rw [h]
  · unfold applyAdjustmentsToCanvas
    rw [h]
  · unfold applyAdjustmentsToCanvas
    rw [h]
    simp [FilterOp.opName]
  · unfold applyAdjustmentsToCanvas
    rw [h1, h, h2]

/-- Witness of `preview_pipeline_spec` on a concrete mid-history session. -/
theorem preview_pipeline_spec_witness :
    (applyAdjustmentsToCanvas sampleState).1 = sampleState
    ∧ (applyAdjustmentsToCanvas sampleState).2
        = some { image := "imgB"
                 filters := [ FilterOp.brightness sampleState.adjustments.brightness
                            , FilterOp.contrast sampleState.adjustments.contrast
                            , FilterOp.saturate sampleState.adjustments.saturation
                            , FilterOp.grayscale sampleState.adjustments.grayscale
                            , FilterOp.sepia sampleState.adjustments.sepia
                            , FilterOp.blur sampleState.adjustments.blur ] }
    ∧ Option.map (fun c => c.filters.map FilterOp.opName) (applyAdjustmentsToCanvas sampleState).2
        = some ["brightness", "contrast", "saturate", "grayscale", "sepia", "blur"]
    ∧ (applyAdjustmentsToCanvas sampleState).2 = (applyAdjustmentsToCanvas sampleState).2 :=
  preview_pipeline_spec sampleState sampleState "imgB" (by decide) rfl rfl

/-- Relation between the extraction loop and `List.find?`: the loop yields
exactly the payload of the first part that carries inline data. -/
theorem findInlinePart_eq_find (l : List ResponsePart) :
    findInlinePart l
      = (l.find? (fun q => q.inlineData.isSome)).bind (fun q => q.inlineData) := by
  induction l with
  | nil => rfl
  | cons p rest ih =>
      cases hp : p.inlineData with
      | some d =>
          rw [List.find?_cons_of_pos _ (by simp [hp])]
          simp [findInlinePart, hp]
      | none =>
          rw [List.find?_cons_of_neg _ (by simp [hp])]
          simpa [findInlinePart, hp] using ih

/-- Reformulation of the extraction: every degenerate branch of the optional
chain throws the same error, so the whole extraction is the scan of the
scanned parts. -/
theorem extract_eq_scan (r : GenerateContentResponse) :
    extractEditedImage r
      = match findInlinePart (scannedParts r) with
        | some d => Except.ok ("data:" ++ d.mimeType ++ ";base64," ++ d.data)
        | none => Except.error "AI successfully processed the request but returned no image. Try a different instruction." := by
  obtain ⟨cands⟩ := r
  cases cands with
  | none => rfl
  | some cl =>
      cases cl with
      | nil => rfl
      | cons c rest =>
          obtain ⟨content⟩ := c
          cases content with
          | none => rfl
          | some ct =>
              obtain ⟨parts⟩ := ct
              cases parts with
              | none => rfl
              | some ps => rfl

/-- C10: after a successful model call, `editImageWithAI` returns the data
URL assembled from the first `inlineData` part found while scanning the
first candidate, and it throws exactly when that scan finds no such part. -/
theorem editImageWithAI_extraction_spec (r : GenerateContentResponse) :
    (∀ p, (scannedParts r).find? (fun q => q.inlineData.isSome) = some p →
       ∀ d, p.inlineData = some d →
         extractEditedImage r
           = Except.ok ("data:" ++ d.mimeType ++ ";base64," ++ d.data))
    ∧ ((∃ e, extractEditedImage r = Except.error e) ↔
         ∀ p ∈ scannedParts r, p.inlineData = none) := by
  have hx := extract_eq_scan r
  rw [findInlinePart_eq_find] at hx
  constructor
  · intro p hp d hd
    rw [hx, hp]
    simp [hd]
  · rw [hx]
    cases hf : (scannedParts r).find? (fun q => q.inlineData.isSome) with
    | none =>
        simp only [Option.none_bind]
        constructor
        · intro _ p hp
          have hnp := List.find?_eq_none.mp hf p hp
          simpa using hnp
        · intro _
          exact ⟨_, rfl⟩
    | some p =>
        have hmem := List.mem_of_find?_eq_some hf
        have hpred := List.find?_some hf
        rw [Option.isSome_iff_exists] at hpred
        obtain ⟨d, hd⟩ := hpred
        simp only [Option.some_bind, hd]
        constructor
        · intro he
          obtain ⟨e, he⟩ := he
          exact (Except.noConfusion he)
        · intro hall
          have hnone := hall p hmem
          rw [hnone] at hd
          exact (Option.noConfusion hd)

/-- Sample model response: a text part followed by an image part. -/
def sampleResponse : GenerateContentResponse :=
  { candidates := some
      [ { content := some
            { parts := some
                [ { text := some "Here is your edit.", inlineData := none }
                , { text := none
                    inlineData := some { mimeType := "image/png", data := "QUJD" } } ] } } ] }

/-- Witness of `editImageWithAI_extraction_spec`: the sample response yields
the assembled data URL, and a response with no candidates throws. -/
theorem editImageWithAI_extraction_spec_witness :
    extractEditedImage sampleResponse
      = Except.ok ("data:" ++ "image/png" ++ ";base64," ++ "QUJD")
    ∧ (∃ e, extractEditedImage { candidates := none } = Except.error e) :=
  ⟨(editImageWithAI_extraction_spec sampleResponse).1
      { text := none, inlineData := some { mimeType := "image/png", data := "QUJD" } }
      (by decide)
      { mimeType := "image/png", data := "QUJD" } rfl,
   (editImageWithAI_extraction_spec { candidates := none }).2.mpr (by decide)⟩

end Lumina
